import Mathlib

/-!
Shallow embedding of the pNode Pulse Python SDK (package `pnode_pulse`:
`models.py`, `exceptions.py`, `client.py`), used to verify the library's
specification. Pure request-building and response-handling code is
translated into Lean functions; the HTTP transport, the Python standard
library's JSON parser and the pydantic validator are external collaborators
whose observable behaviour is modelled explicitly where the code depends
on it.
-/

/-- JSON values, as produced by Python JSON parsing (`response.json()`).
Numbers are modelled as integers; none of the inputs the theorems below
quantify over require floating point literals. -/
inductive Json where
  | null
  | bool (b : Bool)
  | num (n : Int)
  | str (s : String)
  | arr (elts : List Json)
  | obj (fields : List (String × Json))

/-- ASCII lower-casing of one character. -/
def lowerChar (c : Char) : Char :=
  if 65 ≤ c.toNat ∧ c.toNat ≤ 90 then Char.ofNat (c.toNat + 32) else c

/-- ASCII lower-casing of a string (header names are ASCII). -/
def lowerStr (s : String) : String :=
  ⟨s.data.map lowerChar⟩

/-- Case-insensitive header lookup, the behaviour of `httpx.Headers.get`
with no default. -/
def hGet (headers : List (String × String)) (key : String) : Option String :=
  (headers.find? (fun kv => lowerStr kv.fst == lowerStr key)).map (·.snd)

/-- ASCII whitespace, as stripped by Python `int()` from its string
argument. -/
def isPyWs (c : Char) : Bool :=
  c.toNat = 32 ∨ c.toNat = 9 ∨ c.toNat = 10 ∨ c.toNat = 11 ∨ c.toNat = 12 ∨ c.toNat = 13

/-- Value of a non-empty all-digit character sequence; `none` otherwise. -/
def digitsToNat (cs : List Char) : Option Nat :=
  match cs with
  | [] => none
  | _ =>
    cs.foldl
      (fun acc c =>
        match acc with
        | none => none
        | some n => if 48 ≤ c.toNat ∧ c.toNat ≤ 57 then some (n * 10 + (c.toNat - 48)) else none)
      (some 0)

/-- Models the Python builtin `int()` applied to a string: surrounding
whitespace is ignored, an optional sign precedes decimal digits, and any
other string raises ValueError (modelled as `none`). Underscore digit
separators and non-ASCII digits, which CPython also accepts, are not
modelled; no claim depends on them. -/
def pythonInt (s : String) : Option Int :=
  let t := (s.data.dropWhile isPyWs).reverse.dropWhile isPyWs |>.reverse
  match t with
  | '-' :: rest => (digitsToNat rest).map (fun n => -(n : Int))
  | '+' :: rest => (digitsToNat rest).map (fun n => (n : Int))
  | _ => (digitsToNat t).map (fun n => (n : Int))

/-- `int(headers.get(name, default))`: a missing header yields the integer
default unchanged, a present header value goes through `pythonInt`
(`none` = ValueError). -/
def intOfHeaderD (v : Option String) (d : Int) : Option Int :=
  match v with
  | none => some d
  | some s => pythonInt s

/-- `models.RateLimitInfo`: rate limit information from response headers. -/
structure RateLimitInfo where
  limit : Int
  remaining : Int
  reset : Int

/-- The exceptions the SDK code can raise. The first seven constructors
mirror the classes of `exceptions.py`; `pydanticValidationError` models
`pydantic.ValidationError` escaping from `Model.model_validate`,
`valueError` models the Python builtin ValueError (raised by `int()` on a
malformed string), and `jsonDecodeError` models the error `response.json()`
raises on a 2xx body that is not valid JSON. Messages and codes extracted
from an error body are `Json` because those values need not be strings. -/
inductive RaisedException where
  | pnodePulseError (message : Json) (code : Json) (status : Option Nat) (rate_limit : Option RateLimitInfo)
  | rateLimitError (message : Json) (retry_after : Int) (rate_limit : RateLimitInfo)
  | notFoundError (message : Json)
  | authenticationError (message : Json)
  | validationError (message : Json)
  | networkError (message : String)
  | timeoutError (message : String)
  | pydanticValidationError (message : String)
  | valueError (message : String)
  | jsonDecodeError

/-- The `.code` attribute as set by the constructors in `exceptions.py`;
`none` for exceptions outside the SDK taxonomy, which have no such
attribute. -/
def RaisedException.code : RaisedException → Option Json
  | .pnodePulseError _ c _ _ => some c
  | .rateLimitError _ _ _ => some (.str "RATE_LIMIT_EXCEEDED")
  | .notFoundError _ => some (.str "NOT_FOUND")
  | .authenticationError _ => some (.str "UNAUTHORIZED")
  | .validationError _ => some (.str "VALIDATION_ERROR")
  | .networkError _ => some (.str "NETWORK_ERROR")
  | .timeoutError _ => some (.str "TIMEOUT")
  | .pydanticValidationError _ => none
  | .valueError _ => none
  | .jsonDecodeError => none

/-- The `.status` attribute as set by the constructors in `exceptions.py`;
NetworkError and TimeoutError leave the base class default `None`, and
non-SDK exceptions have no such attribute. -/
def RaisedException.status : RaisedException → Option Nat
  | .pnodePulseError _ _ st _ => st
  | .rateLimitError _ _ _ => some 429
  | .notFoundError _ => some 404
  | .authenticationError _ => some 401
  | .validationError _ => some 400
  | _ => none

/-- The `.retry_after` attribute, set only by RateLimitError. -/
def RaisedException.retry_after : RaisedException → Option Int
  | .rateLimitError _ r _ => some r
  | _ => none

/-- The `.rate_limit` attribute as set by the constructors in
`exceptions.py` (NotFoundError, AuthenticationError and ValidationError
leave the base class default `None`). -/
def RaisedException.rate_limit : RaisedException → Option RateLimitInfo
  | .pnodePulseError _ _ _ rl => rl
  | .rateLimitError _ _ rl => some rl
  | _ => none

/-- True exactly for the error kinds `_handle_error_response` dispatches
from an HTTP status: the generic API error and the three status-specific
ones. -/
def RaisedException.is_status_dispatched : RaisedException → Bool
  | .pnodePulseError _ _ _ _ => true
  | .rateLimitError _ _ _ => true
  | .notFoundError _ => true
  | .authenticationError _ => true
  | _ => false

/-- An HTTP response as the client code observes it through httpx: status
code, headers, body text, and the result of `response.json()` (`none`
models `json()` raising; when present it is the JSON parse of `text` —
the parser itself is Python standard library, outside this repository). -/
structure Response where
  status : Nat
  headers : List (String × String)
  text : String
  json : Option Json

/-- `BaseClient._parse_rate_limit`. Each of the three header values goes
through the Python builtin `int()`; a missing header yields `int(0) = 0`,
and a present malformed value raises ValueError (CPython's message embeds
the offending literal; a fixed message stands in for it here). -/
def parse_rate_limit (headers : List (String × String)) : Except RaisedException RateLimitInfo :=
  match intOfHeaderD (hGet headers "X-RateLimit-Limit") 0 with
  | none => .error (.valueError "invalid literal for int() with base 10")
  | some l =>
    match intOfHeaderD (hGet headers "X-RateLimit-Remaining") 0 with
    | none => .error (.valueError "invalid literal for int() with base 10")
    | some r =>
      match intOfHeaderD (hGet headers "X-RateLimit-Reset") 0 with
      | none => .error (.valueError "invalid literal for int() with base 10")
      | some rs => .ok ⟨l, r, rs⟩

/-- The try/except block of `BaseClient._handle_error_response`: parse the
body with `response.json()`, take `data.get("error", {})`, then
`error.get("message"/"code")` with defaults. Any exception inside —
JSONDecodeError from `json()`, or AttributeError from calling `.get` on a
non-dict value — is caught and falls back to the raw response text (or
"Unknown error" when that text is empty) with code "UNKNOWN_ERROR".
Returns the pair (message, code). -/
def extract_error_fields (resp : Response) : Json × Json :=
  let fallback : Json × Json :=
    (.str (if resp.text = "" then "Unknown error" else resp.text), .str "UNKNOWN_ERROR")
  match resp.json with
  | none => fallback
  | some (.obj fields) =>
    match (fields.lookup "error").getD (.obj []) with
    | .obj efields =>
      ((efields.lookup "message").getD (.str "Unknown error"),
       (efields.lookup "code").getD (.str "UNKNOWN_ERROR"))
    | _ => fallback
  | some _ => fallback

/-- `BaseClient._handle_error_response`: dispatch on the status code. The
Python function never returns normally; the value returned here is the
exception it raises. For status 429 the Retry-After header goes through
`int()` with default 60, so a malformed Retry-After raises ValueError
before any RateLimitError is constructed. -/
def handle_error_response (resp : Response) (rate_limit : RateLimitInfo) : RaisedException :=
  let mc := extract_error_fields resp
  if resp.status = 429 then
    match intOfHeaderD (hGet resp.headers "Retry-After") 60 with
    | none => .valueError "invalid literal for int() with base 10"
    | some retry => .rateLimitError mc.fst retry rate_limit
  else if resp.status = 404 then .notFoundError mc.fst
  else if resp.status = 401 then .authenticationError mc.fst
  else .pnodePulseError mc.fst mc.snd (some resp.status) (some rate_limit)

/-- `httpx.Response.is_success`: status code in the 2xx range. -/
def is_success (status : Nat) : Bool :=
  200 ≤ status && status < 300

/-- Outcome of the underlying httpx call: a response, a timeout
(`httpx.TimeoutException`), or another transport-level failure
(`httpx.RequestError` — DNS, connection refusal, reset) carrying
`str(e)`. `httpx.TimeoutException` is a subclass of `httpx.RequestError`;
the code catches the timeout case first, which the two distinct
constructors reflect. -/
inductive TransportResult where
  | success (resp : Response)
  | timeout
  | requestError (message : String)

/-- `PnodePulse._request` (synchronous client): translate transport
failures, parse rate-limit headers, dispatch non-2xx statuses to
`_handle_error_response`, and return the decoded JSON body on success. -/
def sync_request (t : TransportResult) : Except RaisedException Json :=
  match t with
  | .timeout => .error (.timeoutError "Request timed out")
  | .requestError msg => .error (.networkError msg)
  | .success resp =>
    match parse_rate_limit resp.headers with
    | .error e => .error e
    | .ok rl =>
      if is_success resp.status then
        match resp.json with
        | some data => .ok data
        | none => .error .jsonDecodeError
      else
        .error (handle_error_response resp rl)

/-- `AsyncPnodePulse._request` (asynchronous client), transcribed
separately from its own class body: the Python source duplicates the
logic rather than sharing it. -/
def async_request (t : TransportResult) : Except RaisedException Json :=
  match t with
  | .timeout => .error (.timeoutError "Request timed out")
  | .requestError msg => .error (.networkError msg)
  | .success resp =>
    match parse_rate_limit resp.headers with
    | .error e => .error e
    | .ok rl =>
      if is_success resp.status then
        match resp.json with
        | some data => .ok data
        | none => .error .jsonDecodeError
      else
        .error (handle_error_response resp rl)

/-- A query-parameter value as placed in the Python `params` dict: the
resource methods mix strings and integers. -/
inductive PValue where
  | s (v : String)
  | i (v : Int)

/-- `NodesResource.list` (synchronous client): the query-parameter dict it
builds, as an insertion-ordered association list. The five standing keys
are inserted first; `version` and `search` are added only when truthy
(`if version:` — a Python `Optional[str]` is truthy exactly when it is a
non-empty string). Python defaults: status "all", version None, search
None, limit 50, offset 0, order_by "lastSeen", order "desc". -/
def NodesResource.list_params (status : String) (version : Option String)
    (search : Option String) (limit : Int) (offset : Int)
    (order_by : String) (order : String) : List (String × PValue) :=
  let params : List (String × PValue) :=
    [("status", .s status), ("limit", .i limit), ("offset", .i offset),
     ("orderBy", .s order_by), ("order", .s order)]
  let params :=
    match version with
    | some v => if v ≠ "" then params ++ [("version", .s v)] else params
    | none => params
  match search with
  | some sv => if sv ≠ "" then params ++ [("search", .s sv)] else params
  | none => params

/-- `AsyncNodesResource.list`: the same dict-building code, transcribed
from the async class body (the Python source duplicates it). -/
def AsyncNodesResource.list_params (status : String) (version : Option String)
    (search : Option String) (limit : Int) (offset : Int)
    (order_by : String) (order : String) : List (String × PValue) :=
  let params : List (String × PValue) :=
    [("status", .s status), ("limit", .i limit), ("offset", .i offset),
     ("orderBy", .s order_by), ("order", .s order)]
  let params :=
    match version with
    | some v => if v ≠ "" then params ++ [("version", .s v)] else params
    | none => params
  match search with
  | some sv => if sv ≠ "" then params ++ [("search", .s sv)] else params
  | none => params

/-- `NodesResource.get_metrics` query parameters. Python defaults:
range "24h", aggregation "hourly". -/
def NodesResource.get_metrics_params (range : String) (aggregation : String) :
    List (String × PValue) :=
  [("range", .s range), ("aggregation", .s aggregation)]

/-- `AsyncNodesResource.get_metrics` query parameters, transcribed from
the async class body. -/
def AsyncNodesResource.get_metrics_params (range : String) (aggregation : String) :
    List (String × PValue) :=
  [("range", .s range), ("aggregation", .s aggregation)]

/-- `LeaderboardResource.get` query parameters. Python defaults:
metric "uptime", order "top", limit 10, period "7d". -/
def LeaderboardResource.get_params (metric : String) (order : String)
    (limit : Int) (period : String) : List (String × PValue) :=
  [("metric", .s metric), ("order", .s order), ("limit", .i limit),
   ("period", .s period)]

/-- `LeaderboardResource.top_uptime`: calls
`self.get(metric="uptime", order="top", limit=limit)`, leaving `period`
at its default "7d". -/
def LeaderboardResource.top_uptime_params (limit : Int) : List (String × PValue) :=
  LeaderboardResource.get_params "uptime" "top" limit "7d"

/-- `LeaderboardResource.top_efficiency`: calls
`self.get(metric="cpu", order="top", limit=limit)`, leaving `period` at
its default "7d". -/
def LeaderboardResource.top_efficiency_params (limit : Int) : List (String × PValue) :=
  LeaderboardResource.get_params "cpu" "top" limit "7d"

/-- `LeaderboardResource.top_storage`: calls
`self.get(metric="storage", order="top", limit=limit)`, leaving `period`
at its default "7d". -/
def LeaderboardResource.top_storage_params (limit : Int) : List (String × PValue) :=
  LeaderboardResource.get_params "storage" "top" limit "7d"

/-- `AsyncLeaderboardResource.get` query parameters, transcribed from the
async class body. -/
def AsyncLeaderboardResource.get_params (metric : String) (order : String)
    (limit : Int) (period : String) : List (String × PValue) :=
  [("metric", .s metric), ("order", .s order), ("limit", .i limit),
   ("period", .s period)]

/-- `AsyncLeaderboardResource.top_uptime`, transcribed from the async
class body. -/
def AsyncLeaderboardResource.top_uptime_params (limit : Int) : List (String × PValue) :=
  AsyncLeaderboardResource.get_params "uptime" "top" limit "7d"

/-- `AsyncLeaderboardResource.top_efficiency`, transcribed from the async
class body. -/
def AsyncLeaderboardResource.top_efficiency_params (limit : Int) : List (String × PValue) :=
  AsyncLeaderboardResource.get_params "cpu" "top" limit "7d"

/-- `AsyncLeaderboardResource.top_storage`, transcribed from the async
class body. -/
def AsyncLeaderboardResource.top_storage_params (limit : Int) : List (String × PValue) :=
  AsyncLeaderboardResource.get_params "storage" "top" limit "7d"

/-- `NodesResource.get` request path (`f"/api/v1/nodes/{id_or_address}"`;
the Union[int, str] argument is modelled by its string form). -/
def NodesResource.get_path (id_or_address : String) : String :=
  "/api/v1/nodes/" ++ id_or_address

/-- `AsyncNodesResource.get` request path, transcribed from the async
class body. -/
def AsyncNodesResource.get_path (id_or_address : String) : String :=
  "/api/v1/nodes/" ++ id_or_address

/-- `NodesResource.get_metrics` request path
(`f"/api/v1/nodes/{node_id}/metrics"`). -/
def NodesResource.get_metrics_path (node_id : Int) : String :=
  "/api/v1/nodes/" ++ toString node_id ++ "/metrics"

/-- `AsyncNodesResource.get_metrics` request path, transcribed from the
async class body. -/
def AsyncNodesResource.get_metrics_path (node_id : Int) : String :=
  "/api/v1/nodes/" ++ toString node_id ++ "/metrics"

/-- `models.Node` as a record (datetime fields keep their ISO-8601 wire
string form; pydantic's datetime format validation is outside this
repository and none of the claims depends on it). -/
structure Node where
  id : Int
  address : String
  pubkey : Option String
  version : Option String
  is_active : Bool
  last_seen : Option String
  first_seen : String

/-- `models.NodesList` as a record. -/
structure NodesList where
  nodes : List Node
  total : Int
  limit : Int
  offset : Int
  has_more : Bool

/-- Field lookup honouring a pydantic alias with `populate_by_name`:
the alias key is consulted first, then the field name. -/
def jfield (fields : List (String × Json)) (a1 : String) (a2 : String) : Option Json :=
  (fields.lookup a1).orElse (fun _ => fields.lookup a2)

/-- Required-field check of pydantic validation: an absent key is a
"Field required" error. -/
def vReq (o : Option Json) (fname : String) : Except String Json :=
  match o with
  | some v => .ok v
  | none => .error (fname ++ ": Field required")

/-- pydantic validation of an `int` field (numeric-string coercion of lax
mode is not modelled; no claim feeds numeric strings to int fields). -/
def vInt (fname : String) : Json → Except String Int
  | .num n => .ok n
  | _ => .error (fname ++ ": Input should be a valid integer")

/-- pydantic validation of a `str` field. -/
def vStr (fname : String) : Json → Except String String
  | .str s => .ok s
  | _ => .error (fname ++ ": Input should be a valid string")

/-- pydantic validation of a `bool` field. -/
def vBool (fname : String) : Json → Except String Bool
  | .bool b => .ok b
  | _ => .error (fname ++ ": Input should be a valid boolean")

/-- pydantic validation of an `Optional[str]` field with default None:
an absent key or an explicit null is None. -/
def vOptStr (fname : String) : Option Json → Except String (Option String)
  | none => .ok none
  | some .null => .ok none
  | some (.str s) => .ok (some s)
  | some _ => .error (fname ++ ": Input should be a valid string")

/-- `Node.model_validate`: field-by-field validation of a JSON value
against `models.Node` (aliases isActive, lastSeen, firstSeen with
`populate_by_name`). -/
def node_validate (j : Json) : Except String Node :=
  match j with
  | .obj f => do
    let idv ← vReq (f.lookup "id") "id" >>= vInt "id"
    let addr ← vReq (f.lookup "address") "address" >>= vStr "address"
    let pk ← vOptStr "pubkey" (f.lookup "pubkey")
    let ver ← vOptStr "version" (f.lookup "version")
    let act ← vReq (jfield f "isActive" "is_active") "isActive" >>= vBool "isActive"
    let ls ← vOptStr "lastSeen" (jfield f "lastSeen" "last_seen")
    let fs ← vReq (jfield f "firstSeen" "first_seen") "firstSeen" >>= vStr "firstSeen"
    .ok ⟨idv, addr, pk, ver, act, ls, fs⟩
  | _ => .error "Input should be a valid dictionary"

/-- `NodesList.model_validate`: field-by-field validation of a JSON value
against `models.NodesList` (alias hasMore with `populate_by_name`). -/
def nodes_list_validate (j : Json) : Except String NodesList :=
  match j with
  | .obj f => do
    let ns ← vReq (f.lookup "nodes") "nodes"
    let nodes ← match ns with
      | .arr elts => elts.mapM node_validate
      | _ => .error "nodes: Input should be a valid list"
    let total ← vReq (f.lookup "total") "total" >>= vInt "total"
    let limit ← vReq (f.lookup "limit") "limit" >>= vInt "limit"
    let offset ← vReq (f.lookup "offset") "offset" >>= vInt "offset"
    let hm ← vReq (jfield f "hasMore" "has_more") "hasMore" >>= vBool "hasMore"
    .ok ⟨nodes, total, limit, offset, hm⟩
  | _ => .error "Input should be a valid dictionary"

/-- A synchronous resource-method body: `data = self._client._request(...)`
followed by `Model.model_validate(data)`. The resource methods wrap the
validation in no try/except, so a pydantic ValidationError propagates to
the caller unchanged. -/
def sync_call {α : Type} (validate : Json → Except String α)
    (t : TransportResult) : Except RaisedException α :=
  match sync_request t with
  | .error e => .error e
  | .ok data =>
    match validate data with
    | .ok v => .ok v
    | .error m => .error (.pydanticValidationError m)

/-- An asynchronous resource-method body: `data = await
self._client._request(...)` followed by `Model.model_validate(data)`, with
the same absence of any try/except around validation. -/
def async_call {α : Type} (validate : Json → Except String α)
    (t : TransportResult) : Except RaisedException α :=
  match async_request t with
  | .error e => .error e
  | .ok data =>
    match validate data with
    | .ok v => .ok v
    | .error m => .error (.pydanticValidationError m)

/-- `NodesResource.list` end to end for a fixed transport outcome: issue
the request and validate the body as a NodesList. -/
def NodesResource.list_result (t : TransportResult) : Except RaisedException NodesList :=
  sync_call nodes_list_validate t

/-- C7: for every limit, the three leaderboard convenience wrappers build
query parameters identical to `Leaderboard.get` called directly with
(metric="uptime"/"cpu"/"storage", order="top", limit, period="7d"). -/
theorem leaderboard_wrappers_match_get :
    ∀ limit : Int,
      LeaderboardResource.top_uptime_params limit =
        LeaderboardResource.get_params "uptime" "top" limit "7d" ∧
      LeaderboardResource.top_efficiency_params limit =
        LeaderboardResource.get_params "cpu" "top" limit "7d" ∧
      LeaderboardResource.top_storage_params limit =
        LeaderboardResource.get_params "storage" "top" limit "7d" := by
  intro limit
  exact ⟨rfl, rfl, rfl⟩

/-- C8: a transport timeout makes `_request` raise TimeoutError (code
"TIMEOUT") and any other transport-level failure makes it raise
NetworkError (code "NETWORK_ERROR") wrapping the underlying message; in
neither case is a generic API error or any status-based error raised
(both have no status and are outside the status-dispatched kinds). -/
theorem request_transport_failures :
    (sync_request .timeout = .error (.timeoutError "Request timed out") ∧
      (RaisedException.timeoutError "Request timed out").code = some (.str "TIMEOUT") ∧
      (RaisedException.timeoutError "Request timed out").status = none ∧
      (RaisedException.timeoutError "Request timed out").is_status_dispatched = false) ∧
    (∀ msg : String,
      sync_request (.requestError msg) = .error (.networkError msg) ∧
      (RaisedException.networkError msg).code = some (.str "NETWORK_ERROR") ∧
      (RaisedException.networkError msg).status = none ∧
      (RaisedException.networkError msg).is_status_dispatched = false) := by
  exact ⟨⟨rfl, rfl, rfl, rfl⟩, fun msg => ⟨rfl, rfl, rfl, rfl⟩⟩

/-- C9: for every fixed transport outcome, the synchronous and
asynchronous clients behave identically: their `_request` translations
agree, every resource-method pipeline (request plus decode) agrees for
every decoder, and each duplicated query-parameter and path builder
agrees between the sync and async resource classes. -/
theorem sync_async_equivalent :
    (∀ t, sync_request t = async_request t) ∧
    (∀ {α : Type} (validate : Json → Except String α) (t : TransportResult),
      sync_call validate t = async_call validate t) ∧
    (∀ status version search limit offset order_by order,
      NodesResource.list_params status version search limit offset order_by order =
        AsyncNodesResource.list_params status version search limit offset order_by order) ∧
    (∀ range aggregation,
      NodesResource.get_metrics_params range aggregation =
        AsyncNodesResource.get_metrics_params range aggregation) ∧
    (∀ id_or_address,
      NodesResource.get_path id_or_address = AsyncNodesResource.get_path id_or_address) ∧
    (∀ node_id,
      NodesResource.get_metrics_path node_id = AsyncNodesResource.get_metrics_path node_id) ∧
    (∀ metric order limit period,
      LeaderboardResource.get_params metric order limit period =
        AsyncLeaderboardResource.get_params metric order limit period) ∧
    (∀ limit,
      LeaderboardResource.top_uptime_params limit = AsyncLeaderboardResource.top_uptime_params limit ∧
      LeaderboardResource.top_efficiency_params limit = AsyncLeaderboardResource.top_efficiency_params limit ∧
      LeaderboardResource.top_storage_params limit = AsyncLeaderboardResource.top_storage_params limit) := by
  refine ⟨fun t => rfl, fun validate t => rfl, fun _ _ _ _ _ _ _ => rfl,
    fun _ _ => rfl, fun _ => rfl, fun _ => rfl, fun _ _ _ _ => rfl,
    fun _ => ⟨rfl, rfl, rfl⟩⟩

/-- A 200 response whose body lacks the required `total` field of
NodesList (the shape the specification's own example uses). -/
def c1_response : Response :=
  ⟨200, [], "",
    some (.obj [("nodes", .arr []), ("limit", .num 50), ("offset", .num 0),
      ("hasMore", .bool false)])⟩

/-- C1 counterexample: on a body missing `nodes.total`, `Nodes.list` does
raise, but the propagated exception is pydantic's ValidationError, which
carries no `code` or `status` attribute at all — in particular not code
"VALIDATION_ERROR" with status 400 as the claim requires of the library's
ValidationError. -/
theorem nodes_list_decode_failure_counterexample :
    NodesResource.list_result (.success c1_response) =
      .error (.pydanticValidationError "total: Field required") ∧
    (RaisedException.pydanticValidationError "total: Field required").code ≠
      some (.str "VALIDATION_ERROR") ∧
    (RaisedException.pydanticValidationError "total: Field required").status ≠ some 400 ∧
    (RaisedException.pydanticValidationError "total: Field required") ≠
      .validationError (.str "total: Field required") := by
  refine ⟨rfl, ?_, ?_, ?_⟩ <;> simp [RaisedException.code, RaisedException.status]

/-- C1 amended: for every 2xx response whose JSON body fails to validate
against the expected schema record, a resource method (each one is the
`sync_call` pattern with its model's validator) raises pydantic's
ValidationError — not a silent default and not a generic API error, but
also not the library's ValidationError: the propagated exception has no
code or status attribute and is outside the SDK's status-dispatched
taxonomy. -/
theorem resource_decode_failure_raises_pydantic :
    ∀ {α : Type} (validate : Json → Except String α)
      (resp : Response) (rl : RateLimitInfo) (j : Json) (m : String),
      parse_rate_limit resp.headers = .ok rl →
      is_success resp.status = true →
      resp.json = some j →
      validate j = .error m →
      sync_call validate (.success resp) = .error (.pydanticValidationError m) ∧
      (RaisedException.pydanticValidationError m).code = none ∧
      (RaisedException.pydanticValidationError m).status = none ∧
      (RaisedException.pydanticValidationError m).is_status_dispatched = false := by
  intro α validate resp rl j m hparse hsucc hjson hval
  refine ⟨?_, rfl, rfl, rfl⟩
  simp only [sync_call, sync_request, hparse, hsucc, hjson, hval, if_true]

/-- C1 witness: the amended theorem applied at a concrete response with a
missing `total` field. -/
theorem resource_decode_failure_witness :
    parse_rate_limit c1_response.headers = .ok ⟨0, 0, 0⟩ ∧
    is_success c1_response.status = true ∧
    NodesResource.list_result (.success c1_response) =
      .error (.pydanticValidationError "total: Field required") :=
  ⟨rfl, rfl,
    (resource_decode_failure_raises_pydantic nodes_list_validate c1_response ⟨0, 0, 0⟩
      (.obj [("nodes", .arr []), ("limit", .num 50), ("offset", .num 0),
        ("hasMore", .bool false)])
      "total: Field required" rfl rfl rfl rfl).1⟩

/-- C2 counterexample: a present but non-integer X-RateLimit-Limit header
makes `_parse_rate_limit` raise ValueError instead of degrading to zero,
so the function is not total on malformed headers. -/
theorem parse_rate_limit_malformed_raises :
    parse_rate_limit [("X-RateLimit-Limit", "abc")] =
      .error (.valueError "invalid literal for int() with base 10") ∧
    pythonInt "abc" = none := by
  exact ⟨rfl, by decide⟩

/-- C2 amended: `_parse_rate_limit` returns the integer values of the
three X-RateLimit headers, each defaulting to 0 when the header is
missing — but a header that is present and not a valid integer literal
raises ValueError rather than degrading to zero. -/
theorem parse_rate_limit_amended_spec :
    (∀ (headers : List (String × String)) (l r s : Int),
      ((hGet headers "X-RateLimit-Limit" = none ∧ l = 0) ∨
        (∃ sv, hGet headers "X-RateLimit-Limit" = some sv ∧ pythonInt sv = some l)) →
      ((hGet headers "X-RateLimit-Remaining" = none ∧ r = 0) ∨
        (∃ sv, hGet headers "X-RateLimit-Remaining" = some sv ∧ pythonInt sv = some r)) →
      ((hGet headers "X-RateLimit-Reset" = none ∧ s = 0) ∨
        (∃ sv, hGet headers "X-RateLimit-Reset" = some sv ∧ pythonInt sv = some s)) →
      parse_rate_limit headers = .ok ⟨l, r, s⟩) ∧
    (∀ (headers : List (String × String)) (sv : String),
      hGet headers "X-RateLimit-Limit" = some sv → pythonInt sv = none →
      parse_rate_limit headers =
        .error (.valueError "invalid literal for int() with base 10")) ∧
    (∀ (headers : List (String × String)) (sv : String),
      (hGet headers "X-RateLimit-Limit" = none ∨
        (∃ sl n, hGet headers "X-RateLimit-Limit" = some sl ∧ pythonInt sl = some n)) →
      hGet headers "X-RateLimit-Remaining" = some sv → pythonInt sv = none →
      parse_rate_limit headers =
        .error (.valueError "invalid literal for int() with base 10")) ∧
    (∀ (headers : List (String × String)) (sv : String),
      (hGet headers "X-RateLimit-Limit" = none ∨
        (∃ sl n, hGet headers "X-RateLimit-Limit" = some sl ∧ pythonInt sl = some n)) →
      (hGet headers "X-RateLimit-Remaining" = none ∨
        (∃ sr n, hGet headers "X-RateLimit-Remaining" = some sr ∧ pythonInt sr = some n)) →
      hGet headers "X-RateLimit-Reset" = some sv → pythonInt sv = none →
      parse_rate_limit headers =
        .error (.valueError "invalid literal for int() with base 10")) := by
  refine ⟨?_, ?_, ?_, ?_⟩
  · intro headers l r s hl hr hs
    unfold parse_rate_limit intOfHeaderD
    rcases hl with ⟨h1, rfl⟩ | ⟨sv, h1, h2⟩ <;>
      rcases hr with ⟨g1, rfl⟩ | ⟨sw, g1, g2⟩ <;>
        rcases hs with ⟨k1, rfl⟩ | ⟨sx, k1, k2⟩ <;>
          simp [h1, g1, k1, *]
  · intro headers sv h1 h2
    unfold parse_rate_limit intOfHeaderD
    simp [h1, h2]
  · intro headers sv hl h1 h2
    unfold parse_rate_limit intOfHeaderD
    rcases hl with ha | ⟨sl, n, ha, hb⟩ <;> simp [ha, h1, h2, *]
  · intro headers sv hl hr h1 h2
    unfold parse_rate_limit intOfHeaderD
    rcases hl with ha | ⟨sl, n, ha, hb⟩ <;>
      rcases hr with hc | ⟨sr, m, hc, hd⟩ <;> simp [ha, hc, h1, h2, *]

/-- C2 witness: the amended theorem applied at concrete headers — one set
with values present, one with all three missing, and one malformed case
for each of the three headers (the earlier headers well-formed or
absent). -/
theorem parse_rate_limit_amended_witness :
    parse_rate_limit
      [("X-RateLimit-Limit", "100"), ("X-RateLimit-Remaining", "42"),
        ("X-RateLimit-Reset", "1700000000")] = .ok ⟨100, 42, 1700000000⟩ ∧
    parse_rate_limit [] = .ok ⟨0, 0, 0⟩ ∧
    parse_rate_limit [("X-RateLimit-Limit", "soon")] =
      .error (.valueError "invalid literal for int() with base 10") ∧
    parse_rate_limit [("X-RateLimit-Limit", "1"), ("X-RateLimit-Remaining", "x")] =
      .error (.valueError "invalid literal for int() with base 10") ∧
    parse_rate_limit [("X-RateLimit-Remaining", "2"), ("X-RateLimit-Reset", "zzz")] =
      .error (.valueError "invalid literal for int() with base 10") :=
  ⟨parse_rate_limit_amended_spec.1
      [("X-RateLimit-Limit", "100"), ("X-RateLimit-Remaining", "42"),
        ("X-RateLimit-Reset", "1700000000")] 100 42 1700000000
      (Or.inr ⟨"100", rfl, by decide⟩) (Or.inr ⟨"42", rfl, by decide⟩)
      (Or.inr ⟨"1700000000", rfl, by decide⟩),
    parse_rate_limit_amended_spec.1 [] 0 0 0 (Or.inl ⟨rfl, rfl⟩)
      (Or.inl ⟨rfl, rfl⟩) (Or.inl ⟨rfl, rfl⟩),
    parse_rate_limit_amended_spec.2.1 [("X-RateLimit-Limit", "soon")] "soon" rfl (by decide),
    parse_rate_limit_amended_spec.2.2.1
      [("X-RateLimit-Limit", "1"), ("X-RateLimit-Remaining", "x")] "x"
      (Or.inr ⟨"1", 1, rfl, by decide⟩) rfl (by decide),
    parse_rate_limit_amended_spec.2.2.2
      [("X-RateLimit-Remaining", "2"), ("X-RateLimit-Reset", "zzz")] "zzz"
      (Or.inl rfl) (Or.inr ⟨"2", 2, rfl, by decide⟩) rfl (by decide)⟩

/-- C3: a 429 response makes `_request` raise RateLimitError whose
retry_after is the integer value of the Retry-After header (60 when that
header is absent), carrying code "RATE_LIMIT_EXCEEDED", status 429 and
the RateLimitInfo parsed from the response headers. -/
theorem request_429_raises_rate_limit_error :
    ∀ (resp : Response) (rl : RateLimitInfo) (retry : Int),
      resp.status = 429 →
      parse_rate_limit resp.headers = .ok rl →
      ((hGet resp.headers "Retry-After" = none ∧ retry = 60) ∨
        (∃ sv, hGet resp.headers "Retry-After" = some sv ∧ pythonInt sv = some retry)) →
      sync_request (.success resp) =
        .error (.rateLimitError (extract_error_fields resp).fst retry rl) ∧
      (RaisedException.rateLimitError (extract_error_fields resp).fst retry rl).code =
        some (.str "RATE_LIMIT_EXCEEDED") ∧
      (RaisedException.rateLimitError (extract_error_fields resp).fst retry rl).status =
        some 429 ∧
      (RaisedException.rateLimitError (extract_error_fields resp).fst retry rl).retry_after =
        some retry ∧
      (RaisedException.rateLimitError (extract_error_fields resp).fst retry rl).rate_limit =
        some rl := by
  intro resp rl retry hst hparse hretry
  refine ⟨?_, rfl, rfl, rfl, rfl⟩
  simp only [sync_request, hparse, hst, is_success]
  norm_num
  simp only [handle_error_response, if_pos rfl, hst]
  rcases hretry with ⟨h1, rfl⟩ | ⟨sv, h1, h2⟩
  · simp [intOfHeaderD, h1]
  · simp [intOfHeaderD, h1, h2]

/-- C3 witness: a concrete 429 response with Retry-After 5 and one with
the header absent. -/
theorem request_429_witness :
    sync_request (.success ⟨429, [("Retry-After", "5")], "", none⟩) =
      .error (.rateLimitError (.str "Unknown error") 5 ⟨0, 0, 0⟩) ∧
    sync_request (.success ⟨429, [], "", none⟩) =
      .error (.rateLimitError (.str "Unknown error") 60 ⟨0, 0, 0⟩) :=
  ⟨(request_429_raises_rate_limit_error ⟨429, [("Retry-After", "5")], "", none⟩
      ⟨0, 0, 0⟩ 5 rfl rfl (Or.inr ⟨"5", rfl, by decide⟩)).1,
    (request_429_raises_rate_limit_error ⟨429, [], "", none⟩
      ⟨0, 0, 0⟩ 60 rfl rfl (Or.inl ⟨rfl, rfl⟩)).1⟩

/-- C5: a 404 response makes `_request` raise NotFoundError (code
"NOT_FOUND", status 404) and a 401 response makes it raise
AuthenticationError (code "UNAUTHORIZED", status 401), for every response
body — only the message varies with the body. -/
theorem request_404_401_fixed_codes :
    ∀ (resp : Response) (rl : RateLimitInfo),
      parse_rate_limit resp.headers = .ok rl →
      ((resp.status = 404 →
          sync_request (.success resp) =
            .error (.notFoundError (extract_error_fields resp).fst) ∧
          (RaisedException.notFoundError (extract_error_fields resp).fst).code =
            some (.str "NOT_FOUND") ∧
          (RaisedException.notFoundError (extract_error_fields resp).fst).status =
            some 404) ∧
        (resp.status = 401 →
          sync_request (.success resp) =
            .error (.authenticationError (extract_error_fields resp).fst) ∧
          (RaisedException.authenticationError (extract_error_fields resp).fst).code =
            some (.str "UNAUTHORIZED") ∧
          (RaisedException.authenticationError (extract_error_fields resp).fst).status =
            some 401)) := by
  intro resp rl hparse
  constructor
  · intro hst
    refine ⟨?_, rfl, rfl⟩
    simp only [sync_request, hparse, hst, is_success]
    norm_num
    simp [handle_error_response, hst]
  · intro hst
    refine ⟨?_, rfl, rfl⟩
    simp only [sync_request, hparse, hst, is_success]
    norm_num
    simp [handle_error_response, hst]

/-- C5 witness: concrete 404 and 401 responses, with bodies both present
and absent, all yielding the fixed error kinds. -/
theorem request_404_401_witness :
    sync_request (.success ⟨404, [], "gone", none⟩) =
      .error (.notFoundError (.str "gone")) ∧
    sync_request (.success ⟨401, [], "",
        some (.obj [("error", .obj [("message", .str "bad key"), ("code", .str "UNAUTHORIZED")])])⟩) =
      .error (.authenticationError (.str "bad key")) :=
  ⟨((request_404_401_fixed_codes ⟨404, [], "gone", none⟩ ⟨0, 0, 0⟩ rfl).1 rfl).1,
    ((request_404_401_fixed_codes ⟨401, [], "",
        some (.obj [("error", .obj [("message", .str "bad key"), ("code", .str "UNAUTHORIZED")])])⟩
      ⟨0, 0, 0⟩ rfl).2 rfl).1⟩

/-- C4: for a non-2xx status other than 429, 404 and 401, the raised
generic error carries the body's error.message and error.code verbatim
when the body is valid JSON with a nested error object; when the body is
not valid JSON the message is the raw response text (or "Unknown error"
when that text is empty) and the code is "UNKNOWN_ERROR"; and in every
case the error path raises. -/
theorem request_other_status_spec :
    ∀ (resp : Response) (rl : RateLimitInfo),
      parse_rate_limit resp.headers = .ok rl →
      is_success resp.status = false →
      resp.status ≠ 429 → resp.status ≠ 404 → resp.status ≠ 401 →
      ((∀ fields efields msg cd,
          resp.json = some (.obj fields) →
          fields.lookup "error" = some (.obj efields) →
          efields.lookup "message" = some msg →
          efields.lookup "code" = some cd →
          sync_request (.success resp) =
            .error (.pnodePulseError msg cd (some resp.status) (some rl))) ∧
        (resp.json = none →
          sync_request (.success resp) =
            .error (.pnodePulseError
              (.str (if resp.text = "" then "Unknown error" else resp.text))
              (.str "UNKNOWN_ERROR") (some resp.status) (some rl))) ∧
        (∃ e, sync_request (.success resp) = .error e)) := by
  intro resp rl hparse hsucc h429 h404 h401
  have hreq : sync_request (.success resp) =
      .error (handle_error_response resp rl) := by
    simp only [sync_request, hparse, hsucc]
    simp
  have hdisp : handle_error_response resp rl =
      .pnodePulseError (extract_error_fields resp).fst (extract_error_fields resp).snd
        (some resp.status) (some rl) := by
    simp [handle_error_response, h429, h404, h401]
  refine ⟨?_, ?_, ⟨_, hreq⟩⟩
  · intro fields efields msg cd hjson herr hmsg hcd
    rw [hreq, hdisp]
    simp [extract_error_fields, hjson, herr, hmsg, hcd]
  · intro hjson
    rw [hreq, hdisp]
    simp [extract_error_fields, hjson]

/-- C4 witness: a concrete 500 response with a JSON error body, and a
concrete 503 response whose body is not valid JSON. -/
theorem request_other_status_witness :
    sync_request (.success ⟨500, [], "",
        some (.obj [("error", .obj [("message", .str "boom"), ("code", .str "INTERNAL")])])⟩) =
      .error (.pnodePulseError (.str "boom") (.str "INTERNAL") (some 500) (some ⟨0, 0, 0⟩)) ∧
    sync_request (.success ⟨503, [], "teapot", none⟩) =
      .error (.pnodePulseError (.str "teapot") (.str "UNKNOWN_ERROR") (some 503) (some ⟨0, 0, 0⟩)) :=
  ⟨(request_other_status_spec ⟨500, [], "",
        some (.obj [("error", .obj [("message", .str "boom"), ("code", .str "INTERNAL")])])⟩
      ⟨0, 0, 0⟩ rfl rfl (by decide) (by decide) (by decide)).1
      [("error", .obj [("message", .str "boom"), ("code", .str "INTERNAL")])]
      [("message", .str "boom"), ("code", .str "INTERNAL")]
      (.str "boom") (.str "INTERNAL") rfl rfl rfl rfl,
    by
      have h := (request_other_status_spec ⟨503, [], "teapot", none⟩
        ⟨0, 0, 0⟩ rfl rfl (by decide) (by decide) (by decide)).2.1 rfl
      simpa using h⟩

/-- C6: `Nodes.list` with the Python default arguments builds exactly the
five-key query mapping with no version or search entries, and for every
call the version and search keys appear in the mapping exactly when the
corresponding argument is provided and non-empty. -/
theorem nodes_list_params_spec :
    NodesResource.list_params "all" none none 50 0 "lastSeen" "desc" =
      [("status", .s "all"), ("limit", .i 50), ("offset", .i 0),
        ("orderBy", .s "lastSeen"), ("order", .s "desc")] ∧
    (∀ status version search limit offset order_by order,
      (("version" ∈ (NodesResource.list_params status version search limit offset
          order_by order).map Prod.fst) ↔ (∃ v, version = some v ∧ v ≠ "")) ∧
      (("search" ∈ (NodesResource.list_params status version search limit offset
          order_by order).map Prod.fst) ↔ (∃ sv, search = some sv ∧ sv ≠ ""))) := by
  constructor
  · rfl
  · intro status version search limit offset order_by order
    rcases version with _ | v <;> rcases search with _ | sv <;>
      simp only [NodesResource.list_params] <;>
      constructor <;>
      first
        | (by_cases hv : v = "" <;> by_cases hs : sv = "" <;> simp [hv, hs])
        | (by_cases hv : v = "" <;> simp [hv])
        | (by_cases hs : sv = "" <;> simp [hs])
        | simp

/-- A 500 response whose body is valid JSON, a top-level object, but whose
"error" member is a string rather than an object. -/
def c10_response : Response :=
  ⟨500, [], "\x7b\"error\": \"boom\"\x7d", some (.obj [("error", .str "boom")])⟩

/-- C10 counterexample: the body is valid JSON and its top-level value is
an object, yet the extracted message is the raw response text, not the
"Unknown error" default — because `"boom".get` raises AttributeError,
which the except clause catches with the raw-text fallback. -/
theorem error_extraction_counterexample :
    c10_response.json = some (.obj [("error", .str "boom")]) ∧
    extract_error_fields c10_response =
      (.str "\x7b\"error\": \"boom\"\x7d", .str "UNKNOWN_ERROR") ∧
    "\x7b\"error\": \"boom\"\x7d" ≠ "Unknown error" := by
  exact ⟨rfl, rfl, by decide⟩

/-- C10 amended: a valid-JSON top-level object lacking an "error" key (or
whose error object lacks "message"/"code") yields the "Unknown
error"/"UNKNOWN_ERROR" defaults, and the raw-response-text fallback is
used when JSON parsing fails, when the parsed top-level value is not an
object, or when the top-level object's "error" member is present but not
itself an object. -/
theorem error_extraction_fallback_spec :
    ∀ resp : Response,
      (∀ fields, resp.json = some (.obj fields) → fields.lookup "error" = none →
        extract_error_fields resp = (.str "Unknown error", .str "UNKNOWN_ERROR")) ∧
      (∀ fields efields, resp.json = some (.obj fields) →
        fields.lookup "error" = some (.obj efields) →
        (efields.lookup "message" = none →
          (extract_error_fields resp).fst = .str "Unknown error") ∧
        (efields.lookup "code" = none →
          (extract_error_fields resp).snd = .str "UNKNOWN_ERROR")) ∧
      (resp.json = none →
        extract_error_fields resp =
          (.str (if resp.text = "" then "Unknown error" else resp.text),
            .str "UNKNOWN_ERROR")) ∧
      (∀ fields v, resp.json = some (.obj fields) →
        fields.lookup "error" = some v → (∀ efields, v ≠ .obj efields) →
        extract_error_fields resp =
          (.str (if resp.text = "" then "Unknown error" else resp.text),
            .str "UNKNOWN_ERROR")) ∧
      (∀ j, resp.json = some j → (∀ fields, j ≠ .obj fields) →
        extract_error_fields resp =
          (.str (if resp.text = "" then "Unknown error" else resp.text),
            .str "UNKNOWN_ERROR")) := by
  intro resp
  refine ⟨?_, ?_, ?_, ?_, ?_⟩
  · intro fields hjson herr
    simp [extract_error_fields, hjson, herr]
  · intro fields efields hjson herr
    constructor
    · intro hmsg
      simp [extract_error_fields, hjson, herr, hmsg]
    · intro hcd
      simp [extract_error_fields, hjson, herr, hcd]
  · intro hjson
    simp [extract_error_fields, hjson]
  · intro fields v hjson herr hv
    cases v with
    | obj efields => exact absurd rfl (hv efields)
    | null => simp [extract_error_fields, hjson, herr]
    | bool b => simp [extract_error_fields, hjson, herr]
    | num n => simp [extract_error_fields, hjson, herr]
    | str s => simp [extract_error_fields, hjson, herr]
    | arr elts => simp [extract_error_fields, hjson, herr]
  · intro j hjson hj
    cases j with
    | obj fields => exact absurd rfl (hj fields)
    | null => simp [extract_error_fields, hjson]
    | bool b => simp [extract_error_fields, hjson]
    | num n => simp [extract_error_fields, hjson]
    | str s => simp [extract_error_fields, hjson]
    | arr elts => simp [extract_error_fields, hjson]

/-- C10 witness: the amended theorem applied at concrete responses — a
top-level object without an "error" key, an error object without message
and code, and a non-object "error" member. -/
theorem error_extraction_fallback_witness :
    extract_error_fields ⟨500, [], "", some (.obj [("ok", .bool false)])⟩ =
      (.str "Unknown error", .str "UNKNOWN_ERROR") ∧
    (extract_error_fields ⟨500, [], "", some (.obj [("error", .obj [])])⟩).fst =
      .str "Unknown error" ∧
    extract_error_fields c10_response =
      (.str "\x7b\"error\": \"boom\"\x7d", .str "UNKNOWN_ERROR") :=
  ⟨(error_extraction_fallback_spec ⟨500, [], "", some (.obj [("ok", .bool false)])⟩).1
      [("ok", .bool false)] rfl rfl,
    ((error_extraction_fallback_spec ⟨500, [], "", some (.obj [("error", .obj [])])⟩).2.1
      [("error", .obj [])] [] rfl rfl).1 rfl,
    by
      have h := (error_extraction_fallback_spec c10_response).2.2.2.1
        [("error", .str "boom")] (.str "boom") rfl rfl (fun efields => by simp)
      simpa using h⟩
